import Mathlib

/-!
Verification of the factory-synthesis and reflection layers of the
static-injector compiler core.

The development shallowly embeds the two source files

  src/transform/compiler/src/render3/r3_factory.ts
  src/transform/compiler-cli/src/ngtsc/reflection/src/host.ts

into Lean.  The output AST vocabulary (readVar, writeVar, instantiate,
invokeFn, external references, literals, functions and statements) mirrors
the subset of the output_ast module that r_3factory.ts uses; the runtime
identifiers mirror the r_3identifiers module.  Both of those support modules
live outside the verified sources, so their Lean forms are data constructors
whose only relevant property is distinctness.
-/

namespace StaticInjector

/-- A reference to a runtime symbol imported from a module
(output_ast ExternalReference: a moduleName / name pair). -/
structure ExternalReference where
  moduleName : String
  name : String
deriving DecidableEq, Repr

/-- Binary operators of the output AST.  r3_factory.ts only ever builds
BinaryOperator.Or (the JavaScript lazy disjunction), so only that operator
is modelled. -/
inductive BinaryOperator where
  | Or
deriving DecidableEq, Repr

mutual

/-- Output AST types (output_ast Type).  NONE, DYNAMIC and INFERRED are the
NONE_TYPE, DYNAMIC_TYPE and INFERRED_TYPE singletons; expressionType wraps an
expression as a type, optionally carrying a list of type parameters. -/
inductive OType : Type where
  | NONE : OType
  | DYNAMIC : OType
  | INFERRED : OType
  | expressionType (value : Expression) (typeParams : Option (List OType)) : OType

/-- A function parameter of the output AST (output_ast FnParam): a name and
a declared type. -/
inductive FnParam : Type where
  | mk (name : String) (type : OType) : FnParam

/-- One entry of an output-AST literal map (key, quoted flag, value). -/
inductive MapEntry : Type where
  | mk (key : String) (quoted : Bool) (value : Expression) : MapEntry

/-- Output AST expressions (the subset of output_ast that r3_factory.ts
builds).  jsUndefined is not an output_ast node: it models the JavaScript
undefined value that compileInjectDependency produces when control falls off
the end of the function (the source has no branch for a dependency whose
token and attributeNameType are both non-null). -/
inductive Expression : Type where
  | readVar (name : String) : Expression
  | writeVar (name : String) (value : Expression) : Expression
  | binOp (op : BinaryOperator) (lhs rhs : Expression) : Expression
  | instantiate (classExpr : Expression) (args : List Expression) : Expression
  | invokeFn (func : Expression) (args : List Expression) (pureFlag : Bool) : Expression
  | external (ref : ExternalReference) (typeParams : List OType) : Expression
  | litNum (value : Nat) : Expression
  | litBool (value : Bool) : Expression
  | litNull : Expression
  | litArr (entries : List Expression) : Expression
  | litMap (entries : List MapEntry) : Expression
  | fn (params : List FnParam) (statements : List Statement) (type : Option OType)
      (name : Option String) : Expression
  | jsUndefined : Expression

/-- Output AST statements (the subset r3_factory.ts builds): variable
declarations (DeclareVarStmt, with an optional initializer), expression
statements, if statements and return statements. -/
inductive Statement : Type where
  | declareVar (name : String) (value : Option Expression) : Statement
  | exprStmt (expr : Expression) : Statement
  | ifStmt (condition : Expression) (trueCase falseCase : List Statement) : Statement
  | ret (value : Expression) : Statement

end

/-- Module specifier of the runtime identifiers (r3_identifiers Identifiers
all point at the single runtime module). -/
def coreModule : String := "static-injector"

namespace R3

/-- Runtime identifier for the generic injector entry point. -/
def inject : ExternalReference := ⟨coreModule, "ɵɵinject"⟩

/-- Runtime identifier for the directive-scoped injector entry point. -/
def directiveInject : ExternalReference := ⟨coreModule, "ɵɵdirectiveInject"⟩

/-- Runtime identifier for the invalid-factory runtime-throwing stub. -/
def invalidFactory : ExternalReference := ⟨coreModule, "ɵɵinvalidFactory"⟩

/-- Runtime identifier for the invalid-factory-dependency runtime-throwing
stub. -/
def invalidFactoryDep : ExternalReference := ⟨coreModule, "ɵɵinvalidFactoryDep"⟩

/-- Runtime identifier for the base-factory lookup helper. -/
def getInheritedFactory : ExternalReference := ⟨coreModule, "ɵɵgetInheritedFactory"⟩

/-- Type-level identifier for the declared factory type. -/
def FactoryDeclaration : ExternalReference := ⟨coreModule, "ɵFactoryDeclaration"⟩

end R3

namespace InjectFlags

/-- Modelled from the spec: the InjectFlags bitmask constants are imported
from the core module, which is not under src/; the spec describes a single
bitmask parameter encoding the (self, skipSelf, optional) qualifier flags.
The standard flag layout is used; the theorems below depend only on
Default being zero and the flags being distinct bits. -/
def Default : Nat := 0

/-- Host qualifier bit (unused by r3_factory.ts, kept for the layout). -/
def Host : Nat := 1

/-- Self qualifier bit. -/
def Self : Nat := 2

/-- SkipSelf qualifier bit. -/
def SkipSelf : Nat := 4

/-- Optional qualifier bit. -/
def Optional : Nat := 8

end InjectFlags

/-- Target kind of the factory (FactoryTarget in r3_factory.ts). -/
inductive FactoryTarget where
  | Directive
  | Component
  | Injectable
  | Pipe
  | NgModule
deriving DecidableEq, Repr

/-- Kind of a delegated factory (R3FactoryDelegateType): a class to
instantiate or a plain function to call. -/
inductive R3FactoryDelegateType where
  | Class
  | Function
deriving DecidableEq, Repr

/-- Metadata of one dependency (R3DependencyMetadata): the token expression
(none marks an unresolvable dependency), the attribute-name type hint, and
the three qualifier flags. -/
structure R3DependencyMetadata where
  token : Option Expression
  attributeNameType : Option Expression
  optional : Bool
  self : Bool
  skipSelf : Bool

/-- The deps field of the factory metadata: a concrete dependency list, the
literal invalid marker, or the TS null meaning no declared constructor
(constructor inherited from the base class). -/
inductive R3DepsField where
  | list (deps : List R3DependencyMetadata)
  | invalid
  | nullDeps

/-- The three extra fields of R3DelegatedFnOrClassMetadata.  The source
detects the delegated variant by delegateType being defined, and the
interface guarantees all three fields come together, so they are bundled in
one optional record. -/
structure R3DelegatedMetadata where
  delegate : Expression
  delegateType : R3FactoryDelegateType
  delegateDeps : List R3DependencyMetadata

/-- A reference to a type with a value-position and a type-position
expression (R3Reference, restricted to the two fields r3_factory.ts reads). -/
structure R3Reference where
  value : Expression
  type : Expression

/-- The factory metadata union R3FactoryMetadata, flattened: the base
R3ConstructorFactoryMetadata fields, plus the optional delegated-variant
bundle and the optional expression-variant expression.  The source
discriminates the variants with isDelegatedFactoryMetadata (delegateType
defined) and isExpressionFactoryMetadata (expression defined). -/
structure R3FactoryMetadata where
  name : String
  type : R3Reference
  internalType : Expression
  typeArgumentCount : Nat
  deps : R3DepsField
  target : FactoryTarget
  delegated : Option R3DelegatedMetadata
  expression : Option Expression

/-- Result record of compileFactoryFunction (R3CompiledExpression). -/
structure R3CompiledExpression where
  expression : Expression
  statements : List Statement
  type : OType

/-- Variant test isDelegatedFactoryMetadata: the delegated fields are
present (source: delegateType not undefined). -/
def isDelegatedFactoryMetadata (meta : R3FactoryMetadata) : Bool :=
  meta.delegated.isSome

/-- Variant test isExpressionFactoryMetadata: the expression field is
present (source: expression not undefined). -/
def isExpressionFactoryMetadata (meta : R3FactoryMetadata) : Bool :=
  meta.expression.isSome

/-- Injection entry-point selection (getInjectFn): Component, Directive and
Pipe use the directive-scoped injector, NgModule, Injectable and the default
case use the generic injector. -/
def getInjectFn (target : FactoryTarget) : ExternalReference :=
  match target with
  | .Component => R3.directiveInject
  | .Directive => R3.directiveInject
  | .Pipe => R3.directiveInject
  | .NgModule => R3.inject
  | .Injectable => R3.inject

/-- Compilation of one dependency to an injection call
(compileInjectDependency).  A null token yields the invalid-factory-dep stub
applied to the literal index.  Otherwise, when no attribute-name type is
present, the qualifier flags are packed into a bitmask that is passed as a
second argument unless it is Default and the dependency is not optional.
The source has no branch for a non-null token together with a non-null
attributeNameType: the TypeScript function falls off the end there and
returns JavaScript undefined, modelled by the jsUndefined value. -/
def compileInjectDependency (dep : R3DependencyMetadata) (target : FactoryTarget)
    (index : Nat) : Expression :=
  match dep.token with
  | none => .invokeFn (.external R3.invalidFactoryDep []) [.litNum index] false
  | some token =>
    match dep.attributeNameType with
    | none =>
      let flags : Nat :=
        InjectFlags.Default |||
        (if dep.self then InjectFlags.Self else 0) |||
        (if dep.skipSelf then InjectFlags.SkipSelf else 0) |||
        (if dep.optional then InjectFlags.Optional else 0)
      let flagsParam : Option Expression :=
        if flags ≠ InjectFlags.Default ∨ dep.optional then some (.litNum flags) else none
      let injectArgs : List Expression :=
        token :: (match flagsParam with | some f => [f] | none => [])
      .invokeFn (.external (getInjectFn target) []) injectArgs false
    | some _ => .jsUndefined

/-- Helper for injectDependencies: maps compileInjectDependency over the
list, threading the position index starting from start. -/
def injectDependenciesFrom (deps : List R3DependencyMetadata) (target : FactoryTarget)
    (start : Nat) : List Expression :=
  match deps with
  | [] => []
  | dep :: rest =>
    compileInjectDependency dep target start :: injectDependenciesFrom rest target (start + 1)

/-- Compilation of a dependency list (injectDependencies): the source maps
compileInjectDependency over the list with the element index. -/
def injectDependencies (deps : List R3DependencyMetadata) (target : FactoryTarget) :
    List Expression :=
  injectDependenciesFrom deps target 0

/-- Per-dependency entry of the constructor-dependency type
(createCtorDepType): a literal map holding an entry for each qualifier flag
that is set, or none when no flag is set. -/
def createCtorDepType (dep : R3DependencyMetadata) : Option Expression :=
  let entries : List MapEntry :=
    (if dep.optional then [.mk "optional" false (.litBool true)] else []) ++
    (if dep.self then [.mk "self" false (.litBool true)] else []) ++
    (if dep.skipSelf then [.mk "skipSelf" false (.litBool true)] else [])
  if entries.length > 0 then some (.litMap entries) else none

/-- Constructor-dependency type of a dependency list (createCtorDepsType):
each dependency maps to its createCtorDepType entry, a null literal standing
in for dependencies with no entry; the whole array is returned as an
expression type only when at least one dependency produced an entry,
otherwise the result is the NONE type. -/
def createCtorDepsType (deps : List R3DependencyMetadata) : OType :=
  let results := deps.map createCtorDepType
  let hasTypes := results.any Option.isSome
  let attributeTypes : List Expression :=
    results.map (fun r => match r with | some e => e | none => .litNull)
  if hasTypes then .expressionType (.litArr attributeTypes) none else .NONE

/-- Modelled from the spec: typeWithParameters lives in render3/util.ts,
which is not under src/.  The spec says the declared factory type is a
parameterized reference encoding the constructed type and its generic
arity; the helper wraps the type expression in an expression type carrying
one dynamic type parameter per generic argument. -/
def typeWithParameters (type : Expression) (numParams : Nat) : OType :=
  .expressionType type (some (List.replicate numParams .DYNAMIC))

/-- Declared factory type (createFactoryType): a FactoryDeclaration
reference parameterized by the constructed type with its generic arity and
by the constructor-dependency type, the latter being NONE when deps is the
invalid marker or null. -/
def createFactoryType (meta : R3FactoryMetadata) : OType :=
  let ctorDepsType : OType :=
    match meta.deps with
    | .list ds => createCtorDepsType ds
    | .invalid => .NONE
    | .nullDeps => .NONE
  .expressionType
    (.external R3.FactoryDeclaration
      [typeWithParameters meta.type.type meta.typeArgumentCount, ctorDepsType])
    none

/-- Factory synthesis (compileFactoryFunction), translated statement by
statement from the source:

1. typeForCtor is t-or-internalType for non-delegated metadata and just the
   override parameter t for delegated metadata.
2. ctorExpr is an instantiation for a concrete deps list, absent for the
   invalid marker, and a call of the memo variable for null deps (in which
   case the memo variable name is recorded in baseFactoryVar).
3. makeConditionalFactory prepends the declaration of r and the if-statement
   choosing between the constructor statement (or the invalid-factory stub
   when ctorExpr is absent) and the non-constructor expression.
4. The final statement is the invalid-factory stub when no return expression
   was formed, the memoized base-factory call when a base factory is used,
   and a plain return otherwise.
5. With a base factory the function is wrapped in a pure IIFE declaring the
   memo variable. -/
def compileFactoryFunction (meta : R3FactoryMetadata) : R3CompiledExpression :=
  let t : Expression := .readVar "t"
  let typeForCtor : Expression :=
    if ¬ isDelegatedFactoryMetadata meta then .binOp .Or t meta.internalType else t
  let branch : Option String × Option Expression :=
    match meta.deps with
    | .list ds => (none, some (.instantiate typeForCtor (injectDependencies ds meta.target)))
    | .invalid => (none, none)
    | .nullDeps =>
      let bname := "ɵ" ++ meta.name ++ "_BaseFactory"
      (some bname, some (.invokeFn (.readVar bname) [typeForCtor] false))
  let baseFactoryVar : Option String := branch.1
  let ctorExpr : Option Expression := branch.2
  let makeConditionalFactoryStmts : Expression → List Statement := fun nonCtorExpr =>
    let ctorStmt : Statement :=
      match ctorExpr with
      | some ce => .exprStmt (.writeVar "r" ce)
      | none => .exprStmt (.invokeFn (.external R3.invalidFactory []) [] false)
    [.declareVar "r" (some .litNull),
     .ifStmt t [ctorStmt] [.exprStmt (.writeVar "r" nonCtorExpr)]]
  let condResult : List Statement × Option Expression :=
    match meta.delegated with
    | some d =>
      let delegateArgs := injectDependencies d.delegateDeps meta.target
      let factoryExpr : Expression :=
        match d.delegateType with
        | .Class => .instantiate d.delegate delegateArgs
        | .Function => .invokeFn d.delegate delegateArgs false
      (makeConditionalFactoryStmts factoryExpr, some (.readVar "r"))
    | none =>
      match meta.expression with
      | some e => (makeConditionalFactoryStmts e, some (.readVar "r"))
      | none => ([], ctorExpr)
  let preStmts : List Statement := condResult.1
  let retExpr : Option Expression := condResult.2
  let body : List Statement :=
    match retExpr with
    | none => preStmts ++ [.exprStmt (.invokeFn (.external R3.invalidFactory []) [] false)]
    | some re =>
      match baseFactoryVar with
      | some bname =>
        let getInheritedFactoryCall : Expression :=
          .invokeFn (.external R3.getInheritedFactory []) [meta.internalType] false
        let baseFactory : Expression :=
          .binOp .Or (.readVar bname) (.writeVar bname getInheritedFactoryCall)
        preStmts ++ [.ret (.invokeFn baseFactory [typeForCtor] false)]
      | none => preStmts ++ [.ret re]
  let factoryFn : Expression :=
    .fn [.mk "t" .DYNAMIC] body (some .INFERRED) (some (meta.name ++ "_Factory"))
  let factoryFn : Expression :=
    match baseFactoryVar with
    | some bname =>
      .invokeFn (.fn [] [.declareVar bname none, .ret factoryFn] none none) [] true
    | none => factoryFn
  { expression := factoryFn, statements := [], type := createFactoryType meta }

example :
    compileInjectDependency ⟨some (.readVar "T1"), none, false, true, false⟩ .Injectable 0
      = .invokeFn (.external R3.inject []) [.readVar "T1", .litNum 2] false := rfl

example :
    compileInjectDependency ⟨none, none, false, false, false⟩ .Injectable 2
      = .invokeFn (.external R3.invalidFactoryDep []) [.litNum 2] false := rfl

example :
    compileInjectDependency ⟨some (.readVar "T1"), some (.litNull), false, false, false⟩
      .Injectable 0 = .jsUndefined := rfl

mutual

/-- Number of occurrences of the external reference r inside an expression. -/
def countRefExpr (r : ExternalReference) : Expression → Nat
  | .readVar _ => 0
  | .writeVar _ v => countRefExpr r v
  | .binOp _ l rhs => countRefExpr r l + countRefExpr r rhs
  | .instantiate c args => countRefExpr r c + countRefList r args
  | .invokeFn f args _ => countRefExpr r f + countRefList r args
  | .external ref _ => if ref = r then 1 else 0
  | .litNum _ => 0
  | .litBool _ => 0
  | .litNull => 0
  | .litArr es => countRefList r es
  | .litMap es => countRefMapList r es
  | .fn _ stmts _ _ => countRefStmtList r stmts
  | .jsUndefined => 0

/-- Number of occurrences of r inside a list of expressions. -/
def countRefList (r : ExternalReference) : List Expression → Nat
  | [] => 0
  | e :: es => countRefExpr r e + countRefList r es

/-- Number of occurrences of r inside the values of a literal map. -/
def countRefMapList (r : ExternalReference) : List MapEntry → Nat
  | [] => 0
  | .mk _ _ v :: es => countRefExpr r v + countRefMapList r es

/-- Number of occurrences of r inside a statement. -/
def countRefStmt (r : ExternalReference) : Statement → Nat
  | .declareVar _ none => 0
  | .declareVar _ (some v) => countRefExpr r v
  | .exprStmt e => countRefExpr r e
  | .ifStmt c tc fc => countRefExpr r c + countRefStmtList r tc + countRefStmtList r fc
  | .ret v => countRefExpr r v

/-- Number of occurrences of r inside a list of statements. -/
def countRefStmtList (r : ExternalReference) : List Statement → Nat
  | [] => 0
  | s :: ss => countRefStmt r s + countRefStmtList r ss

end

mutual

/-- Whether an expression contains an instantiation node anywhere. -/
def containsInstantiateExpr : Expression → Bool
  | .readVar _ => false
  | .writeVar _ v => containsInstantiateExpr v
  | .binOp _ l rhs => containsInstantiateExpr l || containsInstantiateExpr rhs
  | .instantiate _ _ => true
  | .invokeFn f args _ => containsInstantiateExpr f || containsInstantiateList args
  | .external _ _ => false
  | .litNum _ => false
  | .litBool _ => false
  | .litNull => false
  | .litArr es => containsInstantiateList es
  | .litMap es => containsInstantiateMapList es
  | .fn _ stmts _ _ => containsInstantiateStmtList stmts
  | .jsUndefined => false

/-- Whether a list of expressions contains an instantiation node. -/
def containsInstantiateList : List Expression → Bool
  | [] => false
  | e :: es => containsInstantiateExpr e || containsInstantiateList es

/-- Whether the values of a literal map contain an instantiation node. -/
def containsInstantiateMapList : List MapEntry → Bool
  | [] => false
  | .mk _ _ v :: es => containsInstantiateExpr v || containsInstantiateMapList es

/-- Whether a statement contains an instantiation node. -/
def containsInstantiateStmt : Statement → Bool
  | .declareVar _ none => false
  | .declareVar _ (some v) => containsInstantiateExpr v
  | .exprStmt e => containsInstantiateExpr e
  | .ifStmt c tc fc =>
    containsInstantiateExpr c || containsInstantiateStmtList tc || containsInstantiateStmtList fc
  | .ret v => containsInstantiateExpr v

/-- Whether a list of statements contains an instantiation node. -/
def containsInstantiateStmtList : List Statement → Bool
  | [] => false
  | s :: ss => containsInstantiateStmt s || containsInstantiateStmtList ss

end

mutual

/-- Whether an expression contains an if statement anywhere (inside nested
function bodies included). -/
def containsIfExpr : Expression → Bool
  | .readVar _ => false
  | .writeVar _ v => containsIfExpr v
  | .binOp _ l rhs => containsIfExpr l || containsIfExpr rhs
  | .instantiate c args => containsIfExpr c || containsIfList args
  | .invokeFn f args _ => containsIfExpr f || containsIfList args
  | .external _ _ => false
  | .litNum _ => false
  | .litBool _ => false
  | .litNull => false
  | .litArr es => containsIfList es
  | .litMap es => containsIfMapList es
  | .fn _ stmts _ _ => containsIfStmtList stmts
  | .jsUndefined => false

/-- Whether a list of expressions contains an if statement. -/
def containsIfList : List Expression → Bool
  | [] => false
  | e :: es => containsIfExpr e || containsIfList es

/-- Whether the values of a literal map contain an if statement. -/
def containsIfMapList : List MapEntry → Bool
  | [] => false
  | .mk _ _ v :: es => containsIfExpr v || containsIfMapList es

/-- Whether a statement contains an if statement. -/
def containsIfStmt : Statement → Bool
  | .declareVar _ none => false
  | .declareVar _ (some v) => containsIfExpr v
  | .exprStmt e => containsIfExpr e
  | .ifStmt _ _ _ => true
  | .ret v => containsIfExpr v

/-- Whether a list of statements contains an if statement. -/
def containsIfStmtList : List Statement → Bool
  | [] => false
  | s :: ss => containsIfStmt s || containsIfStmtList ss

end

mutual

/-- Whether a statement declares a variable of the given name in the current
function scope.  Branches of an if statement share the enclosing scope (var
semantics), while nested function expressions open their own scope, so the
search does not descend into expressions. -/
def declaresVarStmt (n : String) : Statement → Bool
  | .declareVar dn _ => dn = n
  | .exprStmt _ => false
  | .ifStmt _ tc fc => declaresVarStmts n tc || declaresVarStmts n fc
  | .ret _ => false

/-- Whether a list of statements declares a variable of the given name. -/
def declaresVarStmts (n : String) : List Statement → Bool
  | [] => false
  | s :: ss => declaresVarStmt n s || declaresVarStmts n ss

end

/-- The expression returned by a synthesized factory: unwraps the pure IIFE
produced for base-factory metadata (a no-argument call of a function whose
body declares the memo and returns the factory), then reads the expression
of the factory body's final return statement. -/
def lastReturnedExpr (e : Expression) : Option Expression :=
  let factoryOf : Expression → Expression := fun outer =>
    match outer with
    | .invokeFn (.fn [] [.declareVar _ none, .ret inner] _ _) [] _ => inner
    | _ => outer
  match factoryOf e with
  | .fn _ stmts _ _ =>
    match stmts.getLast? with
    | some (.ret v) => some v
    | _ => none
  | _ => none

/-- Abstract model of a TypeScript AST node (a ts.Node).  Only identity
matters for the reflection claims, so a node is a bare identifier. -/
structure TsNode where
  id : Nat
deriving DecidableEq, Repr

/-- Abstract model of a ts.Expression (decorator invocation arguments). -/
structure TsExpression where
  id : Nat
deriving DecidableEq, Repr

/-- Abstract model of a DecoratorIdentifier (a simple identifier or a
namespaced property access); only identity matters here. -/
structure DecoratorIdentifier where
  id : Nat
deriving DecidableEq, Repr

/-- Import metadata of a decorator (host.ts Import): the exported symbol
name and the module specifier it came from. -/
structure Import where
  name : String
  fromModule : String
deriving DecidableEq, Repr

/-- The Decorator union of host.ts.  A ConcreteDecorator has a non-null
identifier and a non-null node (and no synthesizedFor field); a
SyntheticDecorator has identifier = null and node = null and records the
node it was synthesized for.  Both carry the display name, the
optional import origin and the optional invocation arguments of
BaseDecorator. -/
inductive Decorator where
  | concrete (name : String) (identifier : DecoratorIdentifier) (imported : Option Import)
      (node : TsNode) (args : Option (List TsExpression))
  | synthetic (name : String) (imported : Option Import)
      (args : Option (List TsExpression)) (synthesizedFor : TsNode)
deriving DecidableEq, Repr

/-- The identifier field of a decorator: present on the concrete variant,
null on the synthetic variant. -/
def Decorator.identifier : Decorator → Option DecoratorIdentifier
  | .concrete _ identifier _ _ _ => some identifier
  | .synthetic _ _ _ _ => none

/-- The node field of a decorator: present on the concrete variant, null on
the synthetic variant. -/
def Decorator.node : Decorator → Option TsNode
  | .concrete _ _ _ node _ => some node
  | .synthetic _ _ _ _ => none

/-- The synthesizedFor field: absent on the concrete variant (the interface
does not declare it), present on the synthetic variant. -/
def Decorator.synthesizedFor : Decorator → Option TsNode
  | .concrete _ _ _ _ _ => none
  | .synthetic _ _ _ synthesizedFor => some synthesizedFor

/-- Decorator.nodeForError: the source returns decorator.node when it is not
null, and otherwise casts to SyntheticDecorator and returns synthesizedFor.
The node field is non-null exactly on the concrete variant, so the two
branches are the two constructor cases. -/
def Decorator.nodeForError : Decorator → TsNode
  | .concrete _ _ _ node _ => node
  | .synthetic _ _ _ synthesizedFor => synthesizedFor

/-- Modelled from the spec for the refinement claim about the declared
factory type: the spec says the declared type always carries a
constructor-dependency-type array mirroring the dependency list, each
dependency rendering as a record holding only its true qualifier flags and a
dependency with no qualifiers rendering as a null placeholder. -/
def specCtorDepEntry (dep : R3DependencyMetadata) : Expression :=
  if dep.optional || dep.self || dep.skipSelf then
    .litMap
      ((if dep.optional then [.mk "optional" false (.litBool true)] else []) ++
       (if dep.self then [.mk "self" false (.litBool true)] else []) ++
       (if dep.skipSelf then [.mk "skipSelf" false (.litBool true)] else []))
  else .litNull

/-- Modelled from the spec: the constructor-dependency-type array the spec
describes, one entry per dependency of the list. -/
def specCtorDepsArrayType (deps : List R3DependencyMetadata) : OType :=
  .expressionType (.litArr (deps.map specCtorDepEntry)) none

/-- Whether a dependency has at least one qualifier flag set. -/
def depHasQualifiers (dep : R3DependencyMetadata) : Bool :=
  dep.optional || dep.self || dep.skipSelf

/-- Occurrences of the base-factory lookup reference inside the token of a
dependency (the only part of a dependency that can reach the emitted
injection call). -/
def depTokenRefCount (r : ExternalReference) (dep : R3DependencyMetadata) : Nat :=
  match dep.token with
  | some tok => countRefExpr r tok
  | none => 0

/-- Occurrences of r inside the tokens of a dependency list. -/
def depsTokenRefCount (r : ExternalReference) (deps : List R3DependencyMetadata) : Nat :=
  (deps.map (depTokenRefCount r)).sum

/-- Occurrences of r inside the delegate expression and delegate dependency
tokens of an optional delegated-variant bundle. -/
def delegatedRefCount (r : ExternalReference) : Option R3DelegatedMetadata → Nat
  | none => 0
  | some d => countRefExpr r d.delegate + depsTokenRefCount r d.delegateDeps

/-- Occurrences of r inside an optional expression. -/
def optRefCount (r : ExternalReference) : Option Expression → Nat
  | none => 0
  | some e => countRefExpr r e

lemma getInjectFn_ne_getInheritedFactory (target : FactoryTarget) :
    getInjectFn target ≠ R3.getInheritedFactory := by
  cases target <;> decide

lemma invalidFactoryDep_ne_getInheritedFactory :
    R3.invalidFactoryDep ≠ R3.getInheritedFactory := by decide

lemma invalidFactory_ne_getInheritedFactory :
    R3.invalidFactory ≠ R3.getInheritedFactory := by decide

lemma baseFactoryVarName_ne_r (s : String) : "ɵ" ++ s ++ "_BaseFactory" ≠ "r" := by
  intro h
  have hl := congrArg String.length h
  simp only [String.length_append] at hl
  have e1 : "ɵ".length = 1 := rfl
  have e2 : "_BaseFactory".length = 12 := rfl
  have e3 : "r".length = 1 := rfl
  rw [e1, e2, e3] at hl
  omega

lemma countRef_compileInjectDependency_gi (dep : R3DependencyMetadata)
    (target : FactoryTarget) (i : Nat)
    (h : depTokenRefCount R3.getInheritedFactory dep = 0) :
    countRefExpr R3.getInheritedFactory (compileInjectDependency dep target i) = 0 := by
  obtain ⟨tok, attr, o, s, ss⟩ := dep
  cases tok with
  | none =>
    simp [compileInjectDependency, countRefExpr, countRefList,
      invalidFactoryDep_ne_getInheritedFactory]
  | some tk =>
    cases attr with
    | some a => simp [compileInjectDependency, countRefExpr]
    | none =>
      simp only [depTokenRefCount] at h
      by_cases hflag :
          (InjectFlags.Default |||
            (if s then InjectFlags.Self else 0) |||
            (if ss then InjectFlags.SkipSelf else 0) |||
            (if o then InjectFlags.Optional else 0)) ≠ InjectFlags.Default ∨ o = true
      · simp [compileInjectDependency, hflag, countRefExpr, countRefList,
          getInjectFn_ne_getInheritedFactory, h]
      · simp [compileInjectDependency, hflag, countRefExpr, countRefList,
          getInjectFn_ne_getInheritedFactory, h]

lemma countRefList_injectDependenciesFrom_gi (deps : List R3DependencyMetadata)
    (target : FactoryTarget) (start : Nat)
    (h : depsTokenRefCount R3.getInheritedFactory deps = 0) :
    countRefList R3.getInheritedFactory (injectDependenciesFrom deps target start) = 0 := by
  induction deps generalizing start with
  | nil => simp [injectDependenciesFrom, countRefList]
  | cons d rest ih =>
    simp only [depsTokenRefCount, List.map_cons, List.sum_cons, Nat.add_eq_zero] at h
    simp only [injectDependenciesFrom, countRefList]
    rw [countRef_compileInjectDependency_gi d target start h.1,
      ih (start + 1) (by simpa [depsTokenRefCount] using h.2)]

lemma injectDependenciesFrom_getElem (deps : List R3DependencyMetadata)
    (target : FactoryTarget) (start : Nat) (i : Nat) (h : i < deps.length) :
    (injectDependenciesFrom deps target start)[i]?
      = some (compileInjectDependency (deps.get ⟨i, h⟩) target (start + i)) := by
  induction deps generalizing start i with
  | nil => exact absurd h (by simp)
  | cons d rest ih =>
    cases i with
    | zero => simp [injectDependenciesFrom]
    | succ j =>
      have hj : j < rest.length := by simpa using h
      simp only [injectDependenciesFrom, List.getElem?_cons_succ]
      rw [ih (start + 1) j hj]
      simp [Nat.add_assoc, Nat.add_comm 1 j]

lemma createCtorDepType_eq_spec (dep : R3DependencyMetadata) :
    createCtorDepType dep
      = if depHasQualifiers dep then some (specCtorDepEntry dep) else none := by
  obtain ⟨tok, attr, o, s, ss⟩ := dep
  cases o <;> cases s <;> cases ss <;> rfl

lemma createCtorDepType_isSome (dep : R3DependencyMetadata) :
    (createCtorDepType dep).isSome = depHasQualifiers dep := by
  rw [createCtorDepType_eq_spec]
  cases hq : depHasQualifiers dep <;> simp [hq]

lemma createCtorDepType_entry (dep : R3DependencyMetadata) :
    (match createCtorDepType dep with | some e => e | none => Expression.litNull)
      = specCtorDepEntry dep := by
  rw [createCtorDepType_eq_spec]
  cases hq : depHasQualifiers dep with
  | true => simp
  | false =>
    simp only [Bool.false_eq_true, if_false]
    simp only [specCtorDepEntry, depHasQualifiers] at hq ⊢
    simp [hq]

lemma createCtorDepsType_any (deps : List R3DependencyMetadata) :
    (deps.map createCtorDepType).any Option.isSome = deps.any depHasQualifiers := by
  induction deps with
  | nil => rfl
  | cons d rest ih => simp [List.any_cons, ih, createCtorDepType_isSome]

lemma createCtorDepsType_entries (deps : List R3DependencyMetadata) :
    (deps.map createCtorDepType).map
        (fun r => match r with | some e => e | none => Expression.litNull)
      = deps.map specCtorDepEntry := by
  induction deps with
  | nil => rfl
  | cons d rest ih => simp only [List.map_cons, ih, createCtorDepType_entry]

lemma createCtorDepsType_eq_spec (deps : List R3DependencyMetadata) :
    createCtorDepsType deps
      = if deps.any depHasQualifiers then specCtorDepsArrayType deps else .NONE := by
  simp only [createCtorDepsType, specCtorDepsArrayType, createCtorDepsType_any,
    createCtorDepsType_entries]

/-- Claim C1, evaluating the code at the failing input: compileInjectDependency
does not produce a defined output expression for a dependency whose token and
attributeNameType are both non-null.  The source function has no branch for
this case and falls off its end, so the call evaluates to JavaScript
undefined instead of an output AST expression, contradicting the claimed
totality of dependency compilation (and the function's own declared return
type). -/
theorem compileInjectDependency_attribute_dep_undefined :
    compileInjectDependency
        ⟨some (.readVar "Tok"), some (.readVar "AttrType"), false, false, false⟩
        .Injectable 0
      = .jsUndefined := rfl

/-- Claim C2: for factory metadata with invalid deps that is neither a
Delegated nor an Expression variant, the synthesized factory's body is the
single invalid-factory stub call, and the emitted function contains no
instantiation node and no conditional statement anywhere. -/
theorem invalid_deps_emit_only_stub (name : String) (ty : R3Reference)
    (internalType : Expression) (argCount : Nat) (target : FactoryTarget) :
    (compileFactoryFunction
          ⟨name, ty, internalType, argCount, .invalid, target, none, none⟩).expression
        = .fn [.mk "t" .DYNAMIC]
            [.exprStmt (.invokeFn (.external R3.invalidFactory []) [] false)]
            (some .INFERRED) (some (name ++ "_Factory"))
      ∧ containsInstantiateExpr
          (compileFactoryFunction
            ⟨name, ty, internalType, argCount, .invalid, target, none, none⟩).expression = false
      ∧ containsIfExpr
          (compileFactoryFunction
            ⟨name, ty, internalType, argCount, .invalid, target, none, none⟩).expression = false :=
  ⟨rfl, rfl, rfl⟩

/-- Claim C3: for factory metadata with null deps (no declared constructor)
the synthesized expression is an immediately-invoked closure that declares
the memo variable and returns the factory function; the factory body ends
with a return of the memoized base-factory resolution - the memo variable
or-else the memo assignment of the getInheritedFactory call on the internal
type - applied to the type-to-construct; the factory body itself declares no
variable with the memo's name; and, provided the metadata's own embedded
expressions do not mention the getInheritedFactory reference, the whole
emitted expression contains exactly one occurrence of getInheritedFactory. -/
theorem null_deps_memoized_base_factory (name : String) (ty : R3Reference)
    (internalType : Expression) (argCount : Nat) (target : FactoryTarget)
    (dm : Option R3DelegatedMetadata) (ex : Option Expression)
    (hInt : countRefExpr R3.getInheritedFactory internalType = 0)
    (hDm : delegatedRefCount R3.getInheritedFactory dm = 0)
    (hEx : optRefCount R3.getInheritedFactory ex = 0) :
    ∃ pre : List Statement,
      (compileFactoryFunction
            ⟨name, ty, internalType, argCount, .nullDeps, target, dm, ex⟩).expression
          = .invokeFn
              (.fn []
                [.declareVar ("ɵ" ++ name ++ "_BaseFactory") none,
                 .ret (.fn [.mk "t" .DYNAMIC]
                   (pre ++
                     [.ret (.invokeFn
                       (.binOp .Or (.readVar ("ɵ" ++ name ++ "_BaseFactory"))
                         (.writeVar ("ɵ" ++ name ++ "_BaseFactory")
                           (.invokeFn (.external R3.getInheritedFactory [])
                             [internalType] false)))
                       [if dm.isSome then Expression.readVar "t"
                        else .binOp .Or (.readVar "t") internalType]
                       false)])
                   (some .INFERRED) (some (name ++ "_Factory")))]
                none none)
              [] true
        ∧ declaresVarStmts ("ɵ" ++ name ++ "_BaseFactory") pre = false
        ∧ countRefExpr R3.getInheritedFactory
            (compileFactoryFunction
              ⟨name, ty, internalType, argCount, .nullDeps, target, dm, ex⟩).expression
          = 1 := by
  cases dm with
  | none =>
    cases ex with
    | none =>
      refine ⟨[], rfl, rfl, ?_⟩
      simp [compileFactoryFunction, isDelegatedFactoryMetadata, countRefExpr,
        countRefStmtList, countRefStmt, countRefList, hInt]
    | some e =>
      simp only [optRefCount] at hEx
      refine ⟨[.declareVar "r" (some .litNull),
               .ifStmt (.readVar "t")
                 [.exprStmt (.writeVar "r"
                   (.invokeFn (.readVar ("ɵ" ++ name ++ "_BaseFactory"))
                     [.binOp .Or (.readVar "t") internalType] false))]
                 [.exprStmt (.writeVar "r" e)]], rfl, ?_, ?_⟩
      · simp [declaresVarStmts, declaresVarStmt, Ne.symm (baseFactoryVarName_ne_r name)]
      · simp [compileFactoryFunction, isDelegatedFactoryMetadata, countRefExpr,
          countRefStmtList, countRefStmt, countRefList, hInt, hEx]
  | some d =>
    obtain ⟨de, dt, dd⟩ := d
    simp only [delegatedRefCount] at hDm
    have hDe : countRefExpr R3.getInheritedFactory de = 0 := by omega
    have hDd : depsTokenRefCount R3.getInheritedFactory dd = 0 := by omega
    have hdd0 : countRefList R3.getInheritedFactory (injectDependencies dd target) = 0 := by
      rw [injectDependencies]
      exact countRefList_injectDependenciesFrom_gi dd target 0 hDd
    cases dt with
    | Class =>
      refine ⟨[.declareVar "r" (some .litNull),
               .ifStmt (.readVar "t")
                 [.exprStmt (.writeVar "r"
                   (.invokeFn (.readVar ("ɵ" ++ name ++ "_BaseFactory"))
                     [.readVar "t"] false))]
                 [.exprStmt (.writeVar "r"
                   (.instantiate de (injectDependencies dd target)))]], rfl, ?_, ?_⟩
      · simp [declaresVarStmts, declaresVarStmt, Ne.symm (baseFactoryVarName_ne_r name)]
      · simp [compileFactoryFunction, isDelegatedFactoryMetadata, countRefExpr,
          countRefStmtList, countRefStmt, countRefList, hInt, hDe, hdd0]
    | Function =>
      refine ⟨[.declareVar "r" (some .litNull),
               .ifStmt (.readVar "t")
                 [.exprStmt (.writeVar "r"
                   (.invokeFn (.readVar ("ɵ" ++ name ++ "_BaseFactory"))
                     [.readVar "t"] false))]
                 [.exprStmt (.writeVar "r"
                   (.invokeFn de (injectDependencies dd target) false))]], rfl, ?_, ?_⟩
      · simp [declaresVarStmts, declaresVarStmt, Ne.symm (baseFactoryVarName_ne_r name)]
      · simp [compileFactoryFunction, isDelegatedFactoryMetadata, countRefExpr,
          countRefStmtList, countRefStmt, countRefList, hInt, hDe, hdd0]

/-- Witness for claim C3: a metadata with null deps, no delegate and no
expression, whose internal type is a bare variable read; every hypothesis
holds by evaluation and the synthesized closure is as the theorem states. -/
theorem null_deps_memoized_base_factory_witness :
    countRefExpr R3.getInheritedFactory (.readVar "Base") = 0
      ∧ delegatedRefCount R3.getInheritedFactory none = 0
      ∧ optRefCount R3.getInheritedFactory none = 0
      ∧ ∃ pre : List Statement,
          (compileFactoryFunction
                ⟨"B", ⟨.readVar "B", .readVar "BType"⟩, .readVar "Base", 0, .nullDeps,
                  .Injectable, none, none⟩).expression
              = .invokeFn
                  (.fn []
                    [.declareVar "ɵB_BaseFactory" none,
                     .ret (.fn [.mk "t" .DYNAMIC]
                       (pre ++
                         [.ret (.invokeFn
                           (.binOp .Or (.readVar "ɵB_BaseFactory")
                             (.writeVar "ɵB_BaseFactory"
                               (.invokeFn (.external R3.getInheritedFactory [])
                                 [.readVar "Base"] false)))
                           [.binOp .Or (.readVar "t") (.readVar "Base")]
                           false)])
                       (some .INFERRED) (some "B_Factory"))]
                    none none)
                  [] true
            ∧ declaresVarStmts "ɵB_BaseFactory" pre = false
            ∧ countRefExpr R3.getInheritedFactory
                (compileFactoryFunction
                  ⟨"B", ⟨.readVar "B", .readVar "BType"⟩, .readVar "Base", 0, .nullDeps,
                    .Injectable, none, none⟩).expression
              = 1 :=
  ⟨rfl, rfl, rfl,
   null_deps_memoized_base_factory "B" ⟨.readVar "B", .readVar "BType"⟩ (.readVar "Base")
     0 .Injectable none none rfl rfl rfl⟩

/-- Claim C4, counterexample: a Delegated-variant metadata whose deps is
null (no declared constructor) is delegated, yet the synthesized factory
does not return the conditional result variable r: the base-factory path
wins and the factory returns the memoized base-factory call, so the claim
that every Delegated-variant factory returns the runtime conditional is
false as stated. -/
theorem delegated_null_deps_returns_base_not_conditional :
    isDelegatedFactoryMetadata
        ⟨"M", ⟨.readVar "M", .readVar "MType"⟩, .readVar "MInternal", 0, .nullDeps,
          .Injectable, some ⟨.readVar "Del", .Class, []⟩, none⟩ = true
      ∧ lastReturnedExpr
          (compileFactoryFunction
            ⟨"M", ⟨.readVar "M", .readVar "MType"⟩, .readVar "MInternal", 0, .nullDeps,
              .Injectable, some ⟨.readVar "Del", .Class, []⟩, none⟩).expression
        ≠ some (.readVar "r") := by
  refine ⟨rfl, ?_⟩
  have hval :
      lastReturnedExpr
          (compileFactoryFunction
            ⟨"M", ⟨.readVar "M", .readVar "MType"⟩, .readVar "MInternal", 0, .nullDeps,
              .Injectable, some ⟨.readVar "Del", .Class, []⟩, none⟩).expression
        = some (.invokeFn
            (.binOp .Or (.readVar "ɵM_BaseFactory")
              (.writeVar "ɵM_BaseFactory"
                (.invokeFn (.external R3.getInheritedFactory []) [.readVar "MInternal"] false)))
            [.readVar "t"] false) := rfl
  rw [hval]
  simp

/-- Claim C4, amended to Delegated-variant metadata whose deps is a concrete
dependency list: the type to construct is exclusively the override parameter
t (the instantiation target is the bare read of t, never the internal type
reference), and the factory body is the runtime conditional that assigns r
the direct-constructor instantiation when t is supplied and otherwise the
delegate call - an instantiation of the delegate for a Class delegate kind
and a plain invocation for a Function delegate kind, both built from the
delegate's own dependency list - and returns r. -/
theorem delegated_factory_conditional (name : String) (ty : R3Reference)
    (internalType : Expression) (argCount : Nat) (target : FactoryTarget)
    (ds : List R3DependencyMetadata) (d : R3DelegatedMetadata) (ex : Option Expression) :
    (compileFactoryFunction
          ⟨name, ty, internalType, argCount, .list ds, target, some d, ex⟩).expression
      = .fn [.mk "t" .DYNAMIC]
          [.declareVar "r" (some .litNull),
           .ifStmt (.readVar "t")
             [.exprStmt (.writeVar "r"
               (.instantiate (.readVar "t") (injectDependencies ds target)))]
             [.exprStmt (.writeVar "r"
               (match d.delegateType with
                | .Class => .instantiate d.delegate (injectDependencies d.delegateDeps target)
                | .Function =>
                  .invokeFn d.delegate (injectDependencies d.delegateDeps target) false))],
           .ret (.readVar "r")]
          (some .INFERRED) (some (name ++ "_Factory")) := by
  obtain ⟨de, dt, dd⟩ := d
  cases dt <;> rfl

/-- Claim C5: a dependency with a token, no attribute-name type and
qualifiers self only compiles to an injection call carrying a bitmask
argument that is exactly the Self flag, while the all-false qualifier case
compiles to an injection call carrying the token alone, with no bitmask
argument. -/
theorem qualifier_bitmask_encoding (tok : Expression) (target : FactoryTarget)
    (index : Nat) :
    compileInjectDependency ⟨some tok, none, false, true, false⟩ target index
        = .invokeFn (.external (getInjectFn target) []) [tok, .litNum InjectFlags.Self] false
      ∧ compileInjectDependency ⟨some tok, none, false, false, false⟩ target index
        = .invokeFn (.external (getInjectFn target) []) [tok] false := by
  constructor <;>
    · simp only [compileInjectDependency]
      norm_num [InjectFlags.Default, InjectFlags.Self, InjectFlags.SkipSelf,
        InjectFlags.Optional]

/-- Claim C6: in any dependency list, a dependency whose token is null
compiles, at its position i, to the invalid-factory-dependency stub applied
to the literal index i, regardless of what the other dependencies of the
list are (each dependency is compiled independently, in order). -/
theorem null_token_dep_indexed_stub (ds : List R3DependencyMetadata)
    (target : FactoryTarget) (i : Nat) (h : i < ds.length)
    (htok : (ds.get ⟨i, h⟩).token = none) :
    (injectDependencies ds target)[i]?
      = some (.invokeFn (.external R3.invalidFactoryDep []) [.litNum i] false) := by
  rw [injectDependencies, injectDependenciesFrom_getElem ds target 0 i h]
  simp only [List.get_eq_getElem] at htok
  simp [compileInjectDependency, htok]

/-- Witness for claim C6: a three-element list mixing a resolvable
dependency, an attribute dependency and a token-less dependency; the
token-less dependency at index 2 compiles to the stub applied to 2. -/
theorem null_token_dep_indexed_stub_witness :
    2 < ([⟨some (.readVar "A"), none, false, false, false⟩,
          ⟨some (.readVar "B"), some (.readVar "Attr"), false, false, false⟩,
          ⟨none, none, false, false, false⟩] : List R3DependencyMetadata).length
      ∧ (([⟨some (.readVar "A"), none, false, false, false⟩,
           ⟨some (.readVar "B"), some (.readVar "Attr"), false, false, false⟩,
           ⟨none, none, false, false, false⟩] : List R3DependencyMetadata).get
            ⟨2, by simp⟩).token = none
      ∧ (injectDependencies
           [⟨some (.readVar "A"), none, false, false, false⟩,
            ⟨some (.readVar "B"), some (.readVar "Attr"), false, false, false⟩,
            ⟨none, none, false, false, false⟩] .Injectable)[2]?
          = some (.invokeFn (.external R3.invalidFactoryDep []) [.litNum 2] false) :=
  ⟨by simp, rfl,
   null_token_dep_indexed_stub
     [⟨some (.readVar "A"), none, false, false, false⟩,
      ⟨some (.readVar "B"), some (.readVar "Attr"), false, false, false⟩,
      ⟨none, none, false, false, false⟩] .Injectable 2 (by simp) rfl⟩

/-- Claim C7: for a dependency with a token and no attribute-name type, the
compiled call's entry point is a function of the target alone - the token is
the first argument of a call of getInjectFn target - and getInjectFn maps
Directive, Component and Pipe to the directive-scoped injector and
Injectable and NgModule to the generic injector; in particular the scenario
dependency (token, self = true) at target Injectable compiles to the generic
injector applied to the token and the Self bitmask. -/
theorem inject_entry_point_by_target (dep : R3DependencyMetadata) (tok : Expression)
    (target : FactoryTarget) (index : Nat)
    (h1 : dep.token = some tok) (h2 : dep.attributeNameType = none) :
    (∃ rest, compileInjectDependency dep target index
        = .invokeFn (.external (getInjectFn target) []) (tok :: rest) false)
      ∧ getInjectFn .Directive = R3.directiveInject
      ∧ getInjectFn .Component = R3.directiveInject
      ∧ getInjectFn .Pipe = R3.directiveInject
      ∧ getInjectFn .Injectable = R3.inject
      ∧ getInjectFn .NgModule = R3.inject
      ∧ compileInjectDependency ⟨some tok, none, false, true, false⟩ .Injectable index
          = .invokeFn (.external R3.inject []) [tok, .litNum InjectFlags.Self] false := by
  obtain ⟨tk, attr, o, s, ss⟩ := dep
  have h1a : tk = some tok := h1
  have h2a : attr = none := h2
  subst h1a h2a
  refine ⟨⟨_, rfl⟩, rfl, rfl, rfl, rfl, rfl, ?_⟩
  simp only [compileInjectDependency]
  norm_num [InjectFlags.Default, InjectFlags.Self, InjectFlags.SkipSelf,
    InjectFlags.Optional, getInjectFn]

/-- Witness for claim C7 at the scenario input: one dependency with token T1
and the self qualifier, target Injectable. -/
theorem inject_entry_point_by_target_witness :
    (⟨some (.readVar "T1"), none, false, true, false⟩ : R3DependencyMetadata).token
        = some (.readVar "T1")
      ∧ (⟨some (.readVar "T1"), none, false, true, false⟩
          : R3DependencyMetadata).attributeNameType = none
      ∧ ((∃ rest, compileInjectDependency
            ⟨some (.readVar "T1"), none, false, true, false⟩ .Injectable 0
            = .invokeFn (.external (getInjectFn .Injectable) []) (.readVar "T1" :: rest) false)
        ∧ getInjectFn .Directive = R3.directiveInject
        ∧ getInjectFn .Component = R3.directiveInject
        ∧ getInjectFn .Pipe = R3.directiveInject
        ∧ getInjectFn .Injectable = R3.inject
        ∧ getInjectFn .NgModule = R3.inject
        ∧ compileInjectDependency
            ⟨some (.readVar "T1"), none, false, true, false⟩ .Injectable 0
            = .invokeFn (.external R3.inject []) [.readVar "T1", .litNum InjectFlags.Self]
                false) :=
  ⟨rfl, rfl,
   inject_entry_point_by_target
     ⟨some (.readVar "T1"), none, false, true, false⟩ (.readVar "T1") .Injectable 0 rfl rfl⟩

/-- Claim C8, counterexample: for a metadata whose dependency list has one
resolvable dependency with no qualifier flags, the declared factory type
does not carry the constructor-dependency-type array the claim describes
(one null placeholder per qualifier-less dependency): the code collapses the
whole array to the NONE type when no dependency has any qualifier. -/
theorem declared_type_no_array_for_default_deps :
    createFactoryType
        ⟨"C", ⟨.readVar "C", .readVar "CType"⟩, .readVar "C", 0,
          .list [⟨some (.readVar "T1"), none, false, false, false⟩], .Injectable, none, none⟩
      ≠ .expressionType
          (.external R3.FactoryDeclaration
            [typeWithParameters (.readVar "CType") 0,
             specCtorDepsArrayType [⟨some (.readVar "T1"), none, false, false, false⟩]])
          none := by
  have hval :
      createFactoryType
          ⟨"C", ⟨.readVar "C", .readVar "CType"⟩, .readVar "C", 0,
            .list [⟨some (.readVar "T1"), none, false, false, false⟩], .Injectable,
            none, none⟩
        = .expressionType
            (.external R3.FactoryDeclaration
              [typeWithParameters (.readVar "CType") 0, .NONE]) none := rfl
  rw [hval]
  simp [specCtorDepsArrayType, typeWithParameters, specCtorDepEntry]

/-- Claim C8, amended: the declared factory type is always a
FactoryDeclaration reference parameterized by the constructed type with its
generic arity and by a dependency-type slot; when deps is a concrete list
with at least one dependency carrying a qualifier flag, that slot is the
array mirroring the list (per-dependency records of the true flags, null
placeholders for qualifier-less dependencies); when no dependency of the
list has any qualifier, or deps is the invalid marker or null, the slot is
the NONE type instead of an array. -/
theorem declared_factory_type_shape (name : String) (ty : R3Reference)
    (internalType : Expression) (argCount : Nat) (target : FactoryTarget)
    (dm : Option R3DelegatedMetadata) (ex : Option Expression)
    (ds : List R3DependencyMetadata) :
    createFactoryType ⟨name, ty, internalType, argCount, .list ds, target, dm, ex⟩
        = .expressionType
            (.external R3.FactoryDeclaration
              [typeWithParameters ty.type argCount,
               if ds.any depHasQualifiers then specCtorDepsArrayType ds else .NONE])
            none
      ∧ createFactoryType ⟨name, ty, internalType, argCount, .invalid, target, dm, ex⟩
        = .expressionType
            (.external R3.FactoryDeclaration
              [typeWithParameters ty.type argCount, .NONE]) none
      ∧ createFactoryType ⟨name, ty, internalType, argCount, .nullDeps, target, dm, ex⟩
        = .expressionType
            (.external R3.FactoryDeclaration
              [typeWithParameters ty.type argCount, .NONE]) none := by
  refine ⟨?_, rfl, rfl⟩
  simp only [createFactoryType, createCtorDepsType_eq_spec]

/-- Claim C9: every Decorator has exactly one of the two shapes populated -
the concrete shape has an identifier and a node and no synthesizedFor, the
synthetic shape has neither identifier nor node and has a synthesizedFor
node - and never both and never neither. -/
theorem decorator_exactly_one_shape (d : Decorator) :
    ((d.identifier.isSome ∧ d.node.isSome ∧ d.synthesizedFor = none)
        ∧ ¬ (d.identifier = none ∧ d.node = none ∧ d.synthesizedFor.isSome))
      ∨ ((d.identifier = none ∧ d.node = none ∧ d.synthesizedFor.isSome)
        ∧ ¬ (d.identifier.isSome ∧ d.node.isSome ∧ d.synthesizedFor = none)) := by
  cases d <;>
    simp [Decorator.identifier, Decorator.node, Decorator.synthesizedFor]

/-- Claim C10: Decorator.nodeForError is total and never returns null - it
returns the decorator's own node on the concrete variant (where the node
field is populated) and the synthesizedFor node on the synthetic variant
(where the node field is null). -/
theorem nodeForError_total (d : Decorator) :
    d.node = some d.nodeForError
      ∨ (d.node = none ∧ d.synthesizedFor = some d.nodeForError) := by
  cases d <;>
    simp [Decorator.node, Decorator.nodeForError, Decorator.synthesizedFor]

end StaticInjector
